import Mathlib

/-!
Shallow embedding of the two client-side scripts of the recipe-showcase
site: `assets/js/includes.js` (the Include Resolver) and
`assets/js/recipe-filter.js` (the Recipe Filter Engine).

DOM nodes are modelled by natural-number identities; element contents,
attributes and visibility are explicit record fields.  Operations that
can throw a `TypeError` in the browser (an unconditional dereference of
a `getElementById` result that was `null`) are modelled in `Except`.
-/

namespace JokoSite

/-! ## JS string primitives

`String.prototype.split(',')` and `String.prototype.trim()` modelled
structurally over the character list, so that concrete evaluations
reduce in the kernel. -/

/-- JS `s.split(sep)` for a one-character separator: splitting the empty
string yields `[""]`, and separators at the ends yield empty tokens. -/
def splitAux (sep : Char) : List Char → List Char → List (List Char)
  | [], acc => [acc.reverse]
  | c :: rest, acc =>
    if c = sep then acc.reverse :: splitAux sep rest []
    else splitAux sep rest (c :: acc)

/-- JS `s.split(sep)` as a function on `String`. -/
def jsSplit (s : String) (sep : Char) : List String :=
  (splitAux sep s.data []).map List.asString

/-- Whitespace characters removed by JS `trim()` (ASCII fragment). -/
def isWs (c : Char) : Bool :=
  c = ' ' || c = '\t' || c = '\n' || c = '\r'

/-- JS `s.trim()`: strip leading and trailing whitespace. -/
def jsTrim (s : String) : String :=
  (((s.data.dropWhile isWs).reverse.dropWhile isWs).reverse).asString

/-! ## Include Resolver (`assets/js/includes.js`)

The script queries `document.querySelectorAll('[data-include]')`, and for
each target fetches the fragment path and splices the response into
`target.innerHTML`; on a non-ok response or a network error it logs and
substitutes a fallback comment marker.  It touches no attribute of any
element. -/

/-- Outcome of `fetch(includePath)` for one fragment path. -/
inductive FetchResult where
  | ok (body : String)
  | httpError
  | networkError
deriving DecidableEq, Repr

/-- An element of the page as the Include Resolver sees it: its
`data-include` attribute (`none` when the attribute is absent, so the
`[data-include]` selector does not match it), its inner content, and the
reference attributes `data-root-href` and `href` that the repository's
documentation says get rewritten. -/
structure IncludeTarget where
  dataInclude : Option String
  content : String
  dataRootHref : Option String
  href : Option String
deriving DecidableEq, Repr

/-- The fallback comment marker spliced in on fetch failure. -/
def fallbackMarker : String := "<!-- include를 불러오지 못했습니다. -->"

/-- What happened to one target: its final state, whether a fetch was
issued for it, and whether an error was logged. -/
structure ResolveOutcome where
  target : IncludeTarget
  fetched : Bool
  logged : Bool
deriving DecidableEq, Repr

/-- Resolution of a single target, following `includes.js` line by line:
an element without the attribute is never selected; `if (!includePath)
return;` skips the empty path; otherwise the fragment is fetched and
spliced into `innerHTML`, with the catch branch logging and substituting
`fallbackMarker`. -/
def resolveOne (fetchf : String → FetchResult) (t : IncludeTarget) :
    ResolveOutcome :=
  match t.dataInclude with
  | none => ⟨t, false, false⟩
  | some path =>
    if path = "" then ⟨t, false, false⟩
    else
      match fetchf path with
      | .ok body => ⟨{ t with content := body }, true, false⟩
      | .httpError => ⟨{ t with content := fallbackMarker }, true, true⟩
      | .networkError => ⟨{ t with content := fallbackMarker }, true, true⟩

/-- The whole `DOMContentLoaded` pass: every target is resolved
independently of the others. -/
def processPage (fetchf : String → FetchResult) (targets : List IncludeTarget) :
    List ResolveOutcome :=
  targets.map (resolveOne fetchf)

/-! ## Recipe Filter Engine (`assets/js/recipe-filter.js`) -/

/-- A recipe card as found in the static markup: the node identity of
its renderable content, whether it carries the `recipe-card` class, and
its three `data-*` attributes (`none` = attribute absent). -/
structure Card where
  content : Nat
  isRecipeCard : Bool
  dataCategory : Option String
  dataIngredients : Option String
  dataDietary : Option String
deriving DecidableEq, Repr

/-- A captured recipe: `element` is the node identity of the clone taken
at collection time, the tag fields are the parsed attributes. -/
structure Recipe where
  element : Nat
  category : String
  ingredients : List String
  dietary : List String
deriving DecidableEq, Repr

/-- `(card.dataset.x || '').split(',').filter(t => t.trim())`: split on
commas and keep the tokens whose trimmed form is non-empty — the kept
tokens themselves are not trimmed. -/
def parseTags (s : String) : List String :=
  (jsSplit s ',').filter (fun d => jsTrim d != "")

/-- The `querySelectorAll('.recipe-card[data-category]')` selector:
the element has the class and the attribute is present. -/
def selectCard (c : Card) : Bool :=
  c.isRecipeCard && c.dataCategory.isSome

/-- `collectRecipeData()`: clone each selected card and parse its
attributes. -/
def collectRecipeData (cards : List Card) : List Recipe :=
  (cards.filter selectCard).map fun c =>
    { element := c.content
      category := c.dataCategory.getD ""
      ingredients := parseTags (c.dataIngredients.getD "")
      dietary := parseTags (c.dataDietary.getD "") }

/-- The two recognized checkbox groups (`input.name`). -/
inductive FilterType where
  | category
  | dietary
deriving DecidableEq, Repr

/-- The module-level `activeFilters` object.  A JS `Set` is modelled as
an insertion-ordered duplicate-free list. -/
structure Filters where
  category : List String
  dietary : List String
deriving DecidableEq, Repr

/-- JS `Set.prototype.add`: append unless already present. -/
def setAdd (s : List String) (v : String) : List String :=
  if v ∈ s then s else s ++ [v]

/-- JS `Set.prototype.delete`: remove the value. -/
def setDelete (s : List String) (v : String) : List String :=
  s.filter (fun x => x ≠ v)

/-- The state mutation inside `handleFilterChange`:
`activeFilters[filterType].add(value)` / `.delete(value)`. -/
def toggle (f : Filters) (t : FilterType) (v : String) (checked : Bool) :
    Filters :=
  match t with
  | .category =>
    { f with category := if checked then setAdd f.category v
                         else setDelete f.category v }
  | .dietary =>
    { f with dietary := if checked then setAdd f.dietary v
                        else setDelete f.dietary v }

/-- `activeFilters.category.size > 0 || activeFilters.dietary.size > 0`. -/
def hasActiveFilters (f : Filters) : Bool :=
  f.category.length > 0 || f.dietary.length > 0

/-- Category predicate: OR semantics over the selected categories. -/
def categoryMatch (f : Filters) (r : Recipe) : Bool :=
  f.category.length == 0 || f.category.contains r.category

/-- Dietary predicate: AND semantics over the selected dietary tags. -/
def dietaryMatch (f : Filters) (r : Recipe) : Bool :=
  f.dietary.length == 0 || f.dietary.all (fun d => r.dietary.contains d)

/-- The filter predicate of `applyFilters`. -/
def includeRecipe (f : Filters) (r : Recipe) : Bool :=
  categoryMatch f r && dietaryMatch f r

/-- `allRecipes.filter(recipe => ...)` — order-preserving. -/
def filteredRecipes (f : Filters) (recipes : List Recipe) : List Recipe :=
  recipes.filter (includeRecipe f)

/-- The DOM anchors the engine touches.  An `Option` field is `none`
when `getElementById` returned `null` for that anchor; dereferencing a
`none` anchor throws.  `originalVisible` holds the visibility of each of
the original recipe sections (a `NodeList`, possibly empty). -/
structure Dom where
  gridContent : Option (List Nat)
  resultCountText : Option String
  filteredVisible : Option Bool
  originalVisible : List Bool
  activeCountText : Option String
  checkboxes : Option (List Bool)
deriving DecidableEq, Repr

/-- `displayFilteredResults(filteredRecipes)`, with the throw points in
source order: hide the original sections, clear the grid (throws when
the grid anchor is missing), append each recipe's stored `element`,
set the count text (throws when missing), reveal the results section
(throws when missing) and scroll to it. -/
def displayFilteredResults (found : List Recipe) (d : Dom) :
    Except String Dom :=
  let d₁ := { d with originalVisible := d.originalVisible.map fun _ => false }
  match d₁.gridContent with
  | none => .error "filteredResultsGrid is null"
  | some _ =>
    let d₂ := { d₁ with gridContent := some (found.map Recipe.element) }
    match d₂.resultCountText with
    | none => .error "resultCountSpan is null"
    | some _ =>
      let d₃ := { d₂ with resultCountText := some (toString found.length) }
      match d₃.filteredVisible with
      | none => .error "filteredResultsSection is null"
      | some _ => .ok { d₃ with filteredVisible := some true }

/-- `hideFilteredResults()`: hide the results section (unguarded
dereference) and show every original section. -/
def hideFilteredResults (d : Dom) : Except String Dom :=
  match d.filteredVisible with
  | none => .error "filteredResultsSection is null"
  | some _ =>
    .ok { d with filteredVisible := some false
                 originalVisible := d.originalVisible.map fun _ => true }

/-- `applyFilters()`: with no active filter hide the filtered view,
otherwise filter the captured recipes and display them. -/
def applyFilters (f : Filters) (recipes : List Recipe) (d : Dom) :
    Except String Dom :=
  if hasActiveFilters f then
    displayFilteredResults (filteredRecipes f recipes) d
  else
    hideFilteredResults d

/-- `updateActiveFiltersCount()`: guarded by
`if (activeFiltersCountSpan)`, so a missing span skips the write. -/
def updateActiveFiltersCount (f : Filters) (d : Dom) : Dom :=
  match d.activeCountText with
  | none => d
  | some _ =>
    let n := f.category.length + f.dietary.length
    let txt := if n = 0 then "" else toString n ++ " filter(s) active"
    { d with activeCountText := some txt }

/-- `handleFilterChange` for a checkbox event: mutate the set, then
`applyFilters()` and `updateActiveFiltersCount()`. -/
def handleFilterChange (f : Filters) (recipes : List Recipe) (d : Dom)
    (t : FilterType) (v : String) (checked : Bool) :
    Filters × Except String Dom :=
  let f' := toggle f t v checked
  match applyFilters f' recipes d with
  | .error e => (f', .error e)
  | .ok d' => (f', .ok (updateActiveFiltersCount f' d'))

/-- `resetFilters()`: clear both sets, uncheck every checkbox of the
filter form (`filterForm.querySelectorAll` throws when the form is
missing), hide the filtered view, update the count display.  The final
scroll is guarded and mutates nothing. -/
def resetFilters (_f : Filters) (d : Dom) : Filters × Except String Dom :=
  let f' : Filters := { category := [], dietary := [] }
  match d.checkboxes with
  | none => (f', .error "filterForm is null")
  | some cbs =>
    let d₁ := { d with checkboxes := some (cbs.map fun _ => false) }
    match hideFilteredResults d₁ with
    | .error e => (f', .error e)
    | .ok d₂ => (f', .ok (updateActiveFiltersCount f' d₂))

/-- `true` exactly when the operation did not throw. -/
def succeeds (e : Except String Dom) : Bool :=
  match e with
  | .ok _ => true
  | .error _ => false

/-- The user-visible rendering: when the filtered section is displayed,
the grid contents and the count; otherwise the original sections. -/
inductive View where
  | original
  | filtered (grid : List Nat) (count : String)
deriving DecidableEq, Repr

/-- Project a `Dom` to what the user sees. -/
def view (d : Dom) : View :=
  if d.filteredVisible = some true then
    .filtered (d.gridContent.getD []) (d.resultCountText.getD "")
  else
    .original

/-! ## Helper lemmas -/

/-- The set a filter type selects inside `activeFilters`. -/
def activeSet (f : Filters) : FilterType → List String
  | .category => f.category
  | .dietary => f.dietary

/-- The text `updateActiveFiltersCount` writes for a filter state. -/
def countText (f : Filters) : String :=
  let n := f.category.length + f.dietary.length
  if n = 0 then "" else toString n ++ " filter(s) active"

theorem length_processPage (fetchf : String → FetchResult)
    (ts : List IncludeTarget) :
    (processPage fetchf ts).length = ts.length := by
  simp [processPage]

theorem get_processPage (fetchf : String → FetchResult)
    (ts : List IncludeTarget) (j : Nat) (hj : j < ts.length) :
    (processPage fetchf ts).get
        ⟨j, (length_processPage fetchf ts).symm ▸ hj⟩ =
      resolveOne fetchf (ts.get ⟨j, hj⟩) := by
  simp [processPage]

theorem displayFilteredResults_eq (found : List Recipe) (d : Dom)
    (g : List Nat) (c : String) (b : Bool)
    (hg : d.gridContent = some g) (hc : d.resultCountText = some c)
    (hb : d.filteredVisible = some b) :
    displayFilteredResults found d =
      .ok { gridContent := some (found.map Recipe.element)
            resultCountText := some (toString found.length)
            filteredVisible := some true
            originalVisible := d.originalVisible.map fun _ => false
            activeCountText := d.activeCountText
            checkboxes := d.checkboxes } := by
  simp [displayFilteredResults, hg, hc, hb]

theorem displayFilteredResults_isSome_eq (found : List Recipe) (d : Dom)
    (hg : d.gridContent.isSome = true) (hc : d.resultCountText.isSome = true)
    (hb : d.filteredVisible.isSome = true) :
    displayFilteredResults found d =
      .ok { gridContent := some (found.map Recipe.element)
            resultCountText := some (toString found.length)
            filteredVisible := some true
            originalVisible := d.originalVisible.map fun _ => false
            activeCountText := d.activeCountText
            checkboxes := d.checkboxes } := by
  obtain ⟨g, hg'⟩ := Option.isSome_iff_exists.mp hg
  obtain ⟨c, hc'⟩ := Option.isSome_iff_exists.mp hc
  obtain ⟨b, hb'⟩ := Option.isSome_iff_exists.mp hb
  exact displayFilteredResults_eq found d g c b hg' hc' hb'

theorem displayFilteredResults_ok_inv (found : List Recipe) (d d' : Dom)
    (h : displayFilteredResults found d = .ok d') :
    d' = { gridContent := some (found.map Recipe.element)
           resultCountText := some (toString found.length)
           filteredVisible := some true
           originalVisible := d.originalVisible.map fun _ => false
           activeCountText := d.activeCountText
           checkboxes := d.checkboxes } := by
  unfold displayFilteredResults at h
  cases hg : d.gridContent <;> simp [hg] at h
  cases hc : d.resultCountText <;> simp [hc] at h
  cases hb : d.filteredVisible <;> simp [hb] at h
  simpa using h.symm

theorem hideFilteredResults_eq (d : Dom) (b : Bool)
    (hb : d.filteredVisible = some b) :
    hideFilteredResults d =
      .ok { d with filteredVisible := some false
                   originalVisible := d.originalVisible.map fun _ => true } := by
  simp [hideFilteredResults, hb]

theorem hideFilteredResults_ok_inv (d d' : Dom)
    (h : hideFilteredResults d = .ok d') :
    d' = { d with filteredVisible := some false
                  originalVisible := d.originalVisible.map fun _ => true } := by
  unfold hideFilteredResults at h
  cases hb : d.filteredVisible <;> simp [hb] at h
  simpa using h.symm

theorem updateActiveFiltersCount_fields (f : Filters) (d : Dom) :
    (updateActiveFiltersCount f d).gridContent = d.gridContent ∧
    (updateActiveFiltersCount f d).resultCountText = d.resultCountText ∧
    (updateActiveFiltersCount f d).filteredVisible = d.filteredVisible ∧
    (updateActiveFiltersCount f d).originalVisible = d.originalVisible ∧
    (updateActiveFiltersCount f d).checkboxes = d.checkboxes ∧
    (updateActiveFiltersCount f d).activeCountText =
      (if d.activeCountText.isSome then some (countText f) else none) := by
  unfold updateActiveFiltersCount
  cases hac : d.activeCountText <;> simp [hac, countText]

/-! ## Claim theorems -/

/-- Claim C1: a captured recipe is included in the recomputed result
exactly when its category matches one of the selected categories (or
none is selected) and it carries every selected dietary tag (or none is
selected): OR semantics across categories, AND semantics across dietary
tags. -/
theorem mem_filteredRecipes_iff (f : Filters) (recipes : List Recipe)
    (r : Recipe) :
    r ∈ filteredRecipes f recipes ↔
      r ∈ recipes ∧
        ((f.category = [] ∨ r.category ∈ f.category) ∧
         (f.dietary = [] ∨ ∀ d ∈ f.dietary, d ∈ r.dietary)) := by
  simp [filteredRecipes, List.mem_filter, includeRecipe, categoryMatch,
        dietaryMatch, List.length_eq_zero, List.all_eq_true]

/-- The dietary parse exactly as claim C4 words it: split the attribute
on commas, trim each token of surrounding whitespace, discard empty
tokens; an absent attribute yields the empty set. -/
def claimDietary : Option String → List String
  | none => []
  | some s => ((jsSplit s ',').map jsTrim).filter (fun t => t != "")

/-- The amended dietary parse: split on commas and discard the tokens
whose trimmed form is empty, but keep the surviving tokens untrimmed
(surrounding whitespace is retained); an absent attribute yields the
empty set. -/
def amendedDietary : Option String → List String
  | none => []
  | some s => (jsSplit s ',').filter (fun t => jsTrim t != "")

/-- A recipe card whose dietary attribute has a space after the comma,
as in `data-dietary="vegan, halal"`. -/
def c4Card : Card :=
  { content := 0
    isRecipeCard := true
    dataCategory := some "main-dish"
    dataIngredients := none
    dataDietary := some "vegan, halal" }

/-- Claim C4 counterexample: for the card with attribute
`"vegan, halal"` the stored dietary field is `["vegan", " halal"]` — the
second token keeps its leading space — while the claimed parse (split,
trim, discard empties) gives `["vegan", "halal"]`. -/
theorem collect_dietary_not_trimmed :
    (collectRecipeData [c4Card]).map Recipe.dietary =
        [["vegan", " halal"]] ∧
      claimDietary c4Card.dataDietary = ["vegan", "halal"] ∧
      (collectRecipeData [c4Card]).map Recipe.dietary ≠
        [claimDietary c4Card.dataDietary] := by
  refine ⟨by decide, by decide, by decide⟩

/-- Claim C4 amended: at initialization every captured recipe's stored
dietary field equals the card's comma-separated attribute split on
commas with the tokens whose trimmed form is empty discarded — the kept
tokens are not trimmed and retain their surrounding whitespace — and an
absent attribute yields the empty set. -/
theorem collect_dietary_eq_amended (cards : List Card) :
    (collectRecipeData cards).map Recipe.dietary =
      (cards.filter selectCard).map (fun c => amendedDietary c.dataDietary) := by
  unfold collectRecipeData
  rw [List.map_map]
  congr 1
  funext c
  cases hc : c.dataDietary
  · simp [hc, amendedDietary]
    decide
  · simp [hc, amendedDietary, parseTags]

/-- A nested page's header placeholder: `data-include` points at the
header partial and the element carries a root-relative reference
attribute `data-root-href="index.html"` with `href="index.html"`, on a
page whose declared base path is `"../.."`. -/
def c2Target : IncludeTarget :=
  { dataInclude := some "../../partials/header.html"
    content := ""
    dataRootHref := some "index.html"
    href := some "index.html" }

/-- A fetch that succeeds with the header markup. -/
def c2Fetch : String → FetchResult := fun _ => .ok "<nav>header</nav>"

/-- Claim C2: the Include Resolver of `includes.js` performs no
attribute rewriting at all — for every fetch outcome and every target,
resolution leaves `data-root-href` and `href` untouched; in particular
the element annotated with `data-root-href="index.html"` on a page with
base path `"../.."` still has `href="index.html"` (not
`"../../index.html"`) after its fragment is spliced in. -/
theorem resolveOne_never_rewrites_paths :
    (∀ (fetchf : String → FetchResult) (t : IncludeTarget),
        (resolveOne fetchf t).target.dataRootHref = t.dataRootHref ∧
          (resolveOne fetchf t).target.href = t.href) ∧
      (resolveOne c2Fetch c2Target).target.content = "<nav>header</nav>" ∧
      (resolveOne c2Fetch c2Target).target.href = some "index.html" := by
  refine ⟨fun fetchf t => ?_, by decide, by decide⟩
  unfold resolveOne
  cases t.dataInclude with
  | none => exact ⟨rfl, rfl⟩
  | some path =>
    by_cases hp : path = ""
    · simp [hp]
    · simp only [hp, if_false]
      cases fetchf path <;> exact ⟨rfl, rfl⟩

/-- Claim C6: when the fragment fetch of a placeholder fails (HTTP
error status or network error), that placeholder's content is replaced
by the fallback marker and the error is logged; and the failure is
local — every placeholder's outcome is exactly the independent
resolution of that placeholder alone. -/
theorem include_fetch_failure_is_local (fetchf : String → FetchResult)
    (ts : List IncludeTarget) (i : Nat) (hi : i < ts.length) (p : String)
    (hp : (ts.get ⟨i, hi⟩).dataInclude = some p) (hpne : p ≠ "")
    (hfail : fetchf p = .httpError ∨ fetchf p = .networkError) :
    (processPage fetchf ts).get
        ⟨i, (length_processPage fetchf ts).symm ▸ hi⟩ =
        ⟨{ ts.get ⟨i, hi⟩ with content := fallbackMarker }, true, true⟩ ∧
      ∀ (j : Nat) (hj : j < ts.length),
        (processPage fetchf ts).get
            ⟨j, (length_processPage fetchf ts).symm ▸ hj⟩ =
          resolveOne fetchf (ts.get ⟨j, hj⟩) := by
  refine ⟨?_, fun j hj => get_processPage fetchf ts j hj⟩
  rw [get_processPage fetchf ts i hi]
  unfold resolveOne
  rw [hp]
  simp only [hpne, if_false]
  rcases hfail with h | h <;> rw [h] <;> simp <;> exact hp.symm

/-- The header placeholder of the witness page; its fetch 404s. -/
def c6FailTarget : IncludeTarget :=
  { dataInclude := some "partials/header.html"
    content := "placeholder"
    dataRootHref := none
    href := none }

/-- The footer placeholder of the witness page; its fetch succeeds. -/
def c6OkTarget : IncludeTarget :=
  { dataInclude := some "partials/footer.html"
    content := "placeholder"
    dataRootHref := none
    href := none }

/-- A fetch where the header partial 404s and everything else loads. -/
def c6Fetch : String → FetchResult := fun p =>
  if p = "partials/header.html" then .httpError else .ok "<footer>f</footer>"

/-- Witness for claim C6: on a page with a failing header placeholder
and a succeeding footer placeholder, the header placeholder ends with
the fallback marker and a logged error while the footer still resolves
to its own outcome. -/
theorem include_fetch_failure_is_local_witness :
    (processPage c6Fetch [c6FailTarget, c6OkTarget]).get
        ⟨0, (length_processPage c6Fetch [c6FailTarget, c6OkTarget]).symm ▸
          (by decide)⟩ =
        ⟨{ [c6FailTarget, c6OkTarget].get ⟨0, by decide⟩ with
            content := fallbackMarker }, true, true⟩ ∧
      (processPage c6Fetch [c6FailTarget, c6OkTarget]).get
          ⟨1, (length_processPage c6Fetch [c6FailTarget, c6OkTarget]).symm ▸
            (by decide)⟩ =
        resolveOne c6Fetch ([c6FailTarget, c6OkTarget].get ⟨1, by decide⟩) :=
  ⟨(include_fetch_failure_is_local c6Fetch [c6FailTarget, c6OkTarget] 0
      (by decide) "partials/header.html" (by decide) (by decide)
      (Or.inl (by decide))).1,
   (include_fetch_failure_is_local c6Fetch [c6FailTarget, c6OkTarget] 0
      (by decide) "partials/header.html" (by decide) (by decide)
      (Or.inl (by decide))).2 1 (by decide)⟩

/-- Claim C10: a placeholder whose `data-include` attribute is absent
(so the `[data-include]` selector skips it) or empty (so the
`if (!includePath) return` guard fires) gets no fetch and keeps its
content, while every placeholder's outcome is still the independent
resolution of that placeholder alone. -/
theorem blank_include_leaves_target_unchanged
    (fetchf : String → FetchResult) (ts : List IncludeTarget)
    (i : Nat) (hi : i < ts.length)
    (hp : (ts.get ⟨i, hi⟩).dataInclude = none ∨
      (ts.get ⟨i, hi⟩).dataInclude = some "") :
    (processPage fetchf ts).get
        ⟨i, (length_processPage fetchf ts).symm ▸ hi⟩ =
        ⟨ts.get ⟨i, hi⟩, false, false⟩ ∧
      ∀ (j : Nat) (hj : j < ts.length),
        (processPage fetchf ts).get
            ⟨j, (length_processPage fetchf ts).symm ▸ hj⟩ =
          resolveOne fetchf (ts.get ⟨j, hj⟩) := by
  refine ⟨?_, fun j hj => get_processPage fetchf ts j hj⟩
  rw [get_processPage fetchf ts i hi]
  unfold resolveOne
  rcases hp with h | h <;> rw [h]
  simp

/-- A placeholder carrying an empty `data-include` attribute. -/
def c10BlankTarget : IncludeTarget :=
  { dataInclude := some ""
    content := "untouched"
    dataRootHref := none
    href := none }

/-- Witness for claim C10: the empty-path placeholder is left exactly
as it was with no fetch issued, while the footer placeholder on the
same page still resolves. -/
theorem blank_include_leaves_target_unchanged_witness :
    (processPage c6Fetch [c10BlankTarget, c6OkTarget]).get
        ⟨0, (length_processPage c6Fetch [c10BlankTarget, c6OkTarget]).symm ▸
          (by decide)⟩ =
        ⟨[c10BlankTarget, c6OkTarget].get ⟨0, by decide⟩, false, false⟩ ∧
      (processPage c6Fetch [c10BlankTarget, c6OkTarget]).get
          ⟨1, (length_processPage c6Fetch [c10BlankTarget, c6OkTarget]).symm ▸
            (by decide)⟩ =
        resolveOne c6Fetch ([c10BlankTarget, c6OkTarget].get ⟨1, by decide⟩) :=
  ⟨(blank_include_leaves_target_unchanged c6Fetch [c10BlankTarget, c6OkTarget]
      0 (by decide) (Or.inr (by decide))).1,
   (blank_include_leaves_target_unchanged c6Fetch [c10BlankTarget, c6OkTarget]
      0 (by decide) (Or.inr (by decide))).2 1 (by decide)⟩

/-- A page where every anchor except the filtered-results grid is
present. -/
def noGridDom : Dom :=
  { gridContent := none
    resultCountText := some ""
    filteredVisible := some false
    originalVisible := [true, true]
    activeCountText := some ""
    checkboxes := some [false, false] }

/-- Claim C3 counterexample: with the grid container absent and one
active category filter, the recompute does not skip the grid write and
finish — it throws (`filteredResultsGrid.innerHTML` dereferences
`null`), aborting the rest of the recompute. -/
theorem recompute_throws_on_missing_grid :
    applyFilters { category := ["main-dish"], dietary := [] } [] noGridDom =
      .error "filteredResultsGrid is null" := rfl

/-- Claim C3 amended: only the active-filters-count update is guarded
by an existence check (a missing count label makes it skip its write
and leave the page untouched).  The recompute itself throws exactly
when an anchor it dereferences is missing: with at least one active
filter it needs the grid, the result-count element and the results
section, and with no active filter it needs the results section; reset
throws exactly when the filter form or the results section is missing. -/
theorem anchor_guard_characterization (f : Filters) (recipes : List Recipe)
    (d : Dom) :
    (succeeds (applyFilters f recipes d) =
        (if hasActiveFilters f then
          d.gridContent.isSome && d.resultCountText.isSome &&
            d.filteredVisible.isSome
        else d.filteredVisible.isSome)) ∧
      (succeeds (resetFilters f d).2 =
        (d.checkboxes.isSome && d.filteredVisible.isSome)) ∧
      (updateActiveFiltersCount f { d with activeCountText := none } =
        { d with activeCountText := none }) := by
  rcases d with ⟨g, rc, fv, ov, ac, cb⟩
  refine ⟨?_, ?_, by simp [updateActiveFiltersCount]⟩
  · cases hf : hasActiveFilters f <;>
      cases g <;> cases rc <;> cases fv <;>
      simp [applyFilters, hf, displayFilteredResults, hideFilteredResults,
        succeeds]
  · cases cb <;> cases fv <;>
      simp [resetFilters, hideFilteredResults, succeeds,
        updateActiveFiltersCount]

/-- A captured main-dish recipe whose stored snapshot is node 7. -/
def r0 : Recipe :=
  { element := 7
    category := "main-dish"
    ingredients := []
    dietary := [] }

/-- A page where every anchor the engine touches is present. -/
def fullDom : Dom :=
  { gridContent := some []
    resultCountText := some ""
    filteredVisible := some false
    originalVisible := [true, true]
    activeCountText := some ""
    checkboxes := some [false, false] }

/-- Claim C5 counterexample: recomputing with the category filter
`{"main-dish"}` over the single captured recipe `r0` puts the stored
snapshot node itself — node `r0.element` — into the live grid:
`appendChild(recipe.element)` appends the captured clone, it does not
append a fresh copy of it, so the stored snapshot does enter the live
presentation tree. -/
theorem stored_snapshot_enters_grid :
    applyFilters { category := ["main-dish"], dietary := [] } [r0] fullDom =
      .ok { gridContent := some [r0.element]
            resultCountText := some "1"
            filteredVisible := some true
            originalVisible := [false, false]
            activeCountText := some ""
            checkboxes := some [false, false] } := rfl

/-- Claim C5 amended: for every recompute with at least one active
filter, the filtered-results container's content is replaced by the
matching recipes' stored snapshot nodes themselves (the clones captured
at initialization — the same nodes on every recompute, not fresh
copies), in the original capture order, and the visible result count is
set to the number of matches. -/
theorem recompute_displays_stored_snapshots (f : Filters)
    (recipes : List Recipe) (d d' : Dom)
    (hf : hasActiveFilters f = true)
    (h : applyFilters f recipes d = .ok d') :
    d'.gridContent =
        some ((filteredRecipes f recipes).map Recipe.element) ∧
      d'.resultCountText =
        some (toString (filteredRecipes f recipes).length) ∧
      d'.filteredVisible = some true := by
  unfold applyFilters at h
  rw [hf] at h
  simp only [if_true] at h
  rw [displayFilteredResults_ok_inv (filteredRecipes f recipes) d d' h]
  exact ⟨rfl, rfl, rfl⟩

/-- Witness for claim C5: with the category filter `{"main-dish"}` and
the single captured recipe `r0`, the grid ends up holding exactly the
stored snapshot node of `r0`, the count reads `"1"` and the filtered
view is shown. -/
theorem recompute_displays_stored_snapshots_witness :
    ({ gridContent := some [r0.element]
       resultCountText := some "1"
       filteredVisible := some true
       originalVisible := [false, false]
       activeCountText := some ""
       checkboxes := some [false, false] } : Dom).gridContent =
        some ((filteredRecipes { category := ["main-dish"], dietary := [] }
          [r0]).map Recipe.element) ∧
      ({ gridContent := some [r0.element]
         resultCountText := some "1"
         filteredVisible := some true
         originalVisible := [false, false]
         activeCountText := some ""
         checkboxes := some [false, false] } : Dom).resultCountText =
        some (toString (filteredRecipes
          { category := ["main-dish"], dietary := [] } [r0]).length) ∧
      ({ gridContent := some [r0.element]
         resultCountText := some "1"
         filteredVisible := some true
         originalVisible := [false, false]
         activeCountText := some ""
         checkboxes := some [false, false] } : Dom).filteredVisible =
        some true :=
  recompute_displays_stored_snapshots
    { category := ["main-dish"], dietary := [] } [r0] fullDom
    { gridContent := some [r0.element]
      resultCountText := some "1"
      filteredVisible := some true
      originalVisible := [false, false]
      activeCountText := some ""
      checkboxes := some [false, false] }
    (by decide) rfl

/-- Claim C7: from every prior filter state and every prior display
state (with the filter form, results section and count label present on
the page), `resetFilters` empties both filter sets — so no filter is
active afterwards — unchecks every checkbox of the filter form, hides
the filtered-results view, redisplays every original section, and
clears the active-filter count label to empty text: the engine is in
the Idle state regardless of the state before the reset. -/
theorem reset_yields_idle (f : Filters) (d : Dom) (cbs : List Bool)
    (b : Bool) (s : String)
    (hcb : d.checkboxes = some cbs) (hfv : d.filteredVisible = some b)
    (hac : d.activeCountText = some s) :
    resetFilters f d =
        ({ category := [], dietary := [] },
         .ok { gridContent := d.gridContent
               resultCountText := d.resultCountText
               filteredVisible := some false
               originalVisible := d.originalVisible.map fun _ => true
               activeCountText := some ""
               checkboxes := some (cbs.map fun _ => false) }) ∧
      hasActiveFilters { category := [], dietary := [] } = false := by
  refine ⟨?_, by decide⟩
  unfold resetFilters
  rw [hcb]
  simp only [hideFilteredResults, hfv]
  simp [updateActiveFiltersCount, hac]

/-- Witness for claim C7: resetting from an active category filter on a
page showing two matched recipes returns the engine to Idle — empty
filter sets, all checkboxes cleared, filtered view hidden, original
sections shown, count label empty. -/
theorem reset_yields_idle_witness :
    resetFilters { category := ["main-dish"], dietary := ["vegan"] }
        { gridContent := some [7, 9]
          resultCountText := some "2"
          filteredVisible := some true
          originalVisible := [false, false]
          activeCountText := some "2 filter(s) active"
          checkboxes := some [true, true, false] } =
        ({ category := [], dietary := [] },
         .ok { gridContent := some [7, 9]
               resultCountText := some "2"
               filteredVisible := some false
               originalVisible := [true, true]
               activeCountText := some ""
               checkboxes := some [false, false, false] }) ∧
      hasActiveFilters { category := [], dietary := [] } = false := by
  have h := reset_yields_idle
    { category := ["main-dish"], dietary := ["vegan"] }
    { gridContent := some [7, 9]
      resultCountText := some "2"
      filteredVisible := some true
      originalVisible := [false, false]
      activeCountText := some "2 filter(s) active"
      checkboxes := some [true, true, false] }
    [true, true, false] true "2 filter(s) active" rfl rfl rfl
  exact h

/-- Claim C9: recomputing twice with an unchanged filter state gives
exactly the state one recompute gives — a successful `applyFilters` run
produces a fixed point of `applyFilters`, so the displayed recipe set,
the result count and the visibility of the filtered and original
sections are identical after the second run. -/
theorem recompute_idempotent (f : Filters) (recipes : List Recipe)
    (d d' : Dom) (h : applyFilters f recipes d = .ok d') :
    applyFilters f recipes d' = .ok d' := by
  unfold applyFilters at h ⊢
  cases hf : hasActiveFilters f <;> simp only [hf] at h ⊢
  · simp only [Bool.false_eq_true, if_false] at h ⊢
    have hd := hideFilteredResults_ok_inv d d' h
    subst hd
    rw [hideFilteredResults_eq _ false rfl]
    simp [List.map_map, Function.comp]
  · simp only [if_true] at h ⊢
    have hd := displayFilteredResults_ok_inv _ d d' h
    subst hd
    rw [displayFilteredResults_eq _ _ _ _ _ rfl rfl rfl]
    simp [List.map_map, Function.comp]

/-- Witness for claim C9: one recompute with the dietary filter
`{"vegan"}` lands in a display state that a second recompute with the
same filter state reproduces unchanged. -/
theorem recompute_idempotent_witness :
    applyFilters { category := [], dietary := ["vegan"] } [r0]
        { gridContent := some []
          resultCountText := some "0"
          filteredVisible := some true
          originalVisible := [false, false]
          activeCountText := some ""
          checkboxes := some [false, false] } =
      .ok { gridContent := some []
            resultCountText := some "0"
            filteredVisible := some true
            originalVisible := [false, false]
            activeCountText := some ""
            checkboxes := some [false, false] } :=
  recompute_idempotent { category := [], dietary := ["vegan"] } [r0] fullDom
    { gridContent := some []
      resultCountText := some "0"
      filteredVisible := some true
      originalVisible := [false, false]
      activeCountText := some ""
      checkboxes := some [false, false] }
    rfl

theorem setDelete_setAdd (s : List String) (v : String) (hv : v ∉ s) :
    setDelete (setAdd s v) v = s := by
  unfold setAdd setDelete
  rw [if_neg hv, List.filter_append]
  simp
  intro a ha
  exact fun h => hv (h ▸ ha)

theorem setAdd_length_pos (s : List String) (v : String) :
    0 < (setAdd s v).length := by
  unfold setAdd
  split
  · rename_i h
    exact List.length_pos.mpr (List.ne_nil_of_mem h)
  · simp

theorem hasActive_toggle_on (f : Filters) (t : FilterType) (v : String) :
    hasActiveFilters (toggle f t v true) = true := by
  cases t
  case category =>
    simp [toggle, hasActiveFilters]
    left
    exact setAdd_length_pos _ _
  case dietary =>
    simp [toggle, hasActiveFilters]
    right
    exact setAdd_length_pos _ _

theorem toggle_roundtrip (f : Filters) (t : FilterType) (v : String)
    (hv : v ∉ activeSet f t) :
    toggle (toggle f t v true) t v false = f := by
  cases t
  case category =>
    simp only [activeSet] at hv
    simp [toggle, setDelete_setAdd f.category v hv]
  case dietary =>
    simp only [activeSet] at hv
    simp [toggle, setDelete_setAdd f.dietary v hv]

/-- The filter state with the single category `main-dish` selected. -/
def c8Filters : Filters := { category := ["main-dish"], dietary := [] }

/-- The page state after the on-toggle of `main-dish` from
`c8Filters` over the captured recipe set `[r0]` on `fullDom`. -/
def c8MidDom : Dom :=
  { gridContent := some [7]
    resultCountText := some "1"
    filteredVisible := some true
    originalVisible := [false, false]
    activeCountText := some "1 filter(s) active"
    checkboxes := some [false, false] }

/-- Claim C8 counterexample: starting from the filter state that
already has `main-dish` selected, toggling `(category, "main-dish")`
on and then off does not return the filter state to its prior value:
the JS `Set.add` of an element already present is a no-op, so the
subsequent `Set.delete` removes it and the final state is empty. -/
theorem toggle_on_off_not_roundtrip :
    handleFilterChange c8Filters [r0] fullDom .category "main-dish" true =
        (c8Filters, .ok c8MidDom) ∧
      (handleFilterChange c8Filters [r0] c8MidDom .category "main-dish"
          false).1 = { category := [], dietary := [] } ∧
      ({ category := [], dietary := [] } : Filters) ≠ c8Filters :=
  ⟨rfl, rfl, by decide⟩

/-- Claim C8 amended: toggling `(t, v)` on and then off restores the
filter state to `F` provided `v` was not already in the corresponding
active set (as is the case whenever the toggles come from a checkbox
that was unchecked), and restores the user-visible results view, the
active-filter count label, the original sections' visibility and the
checkbox states, provided the display was in sync with `F` before the
first toggle (it always is, since every change handler ends in a
recompute and a count update). -/
theorem toggle_roundtrip_restores (f : Filters) (recipes : List Recipe)
    (d : Dom) (t : FilterType) (v : String)
    (hv : v ∉ activeSet f t)
    (hsync1 : applyFilters f recipes d = .ok d)
    (hsync2 : updateActiveFiltersCount f d = d)
    (f1 : Filters) (d1 : Dom)
    (h1 : handleFilterChange f recipes d t v true = (f1, .ok d1)) :
    (handleFilterChange f1 recipes d1 t v false).1 = f ∧
      ∃ d2, (handleFilterChange f1 recipes d1 t v false).2 = .ok d2 ∧
        view d2 = view d ∧
        d2.activeCountText = d.activeCountText ∧
        d2.originalVisible = d.originalVisible ∧
        d2.checkboxes = d.checkboxes := by
  obtain ⟨g, rc, fv, ov, ac, cb⟩ := d
  simp only [handleFilterChange] at h1
  cases ha : applyFilters (toggle f t v true) recipes ⟨g, rc, fv, ov, ac, cb⟩ with
  | error e => rw [ha] at h1; simp at h1
  | ok dd1 =>
    rw [ha] at h1
    simp only [Prod.mk.injEq, Except.ok.injEq] at h1
    obtain ⟨hf1, hd1⟩ := h1
    subst hf1
    subst hd1
    unfold applyFilters at ha
    rw [hasActive_toggle_on] at ha
    simp only [if_true] at ha
    have hdd1 := displayFilteredResults_ok_inv _ _ _ ha
    subst hdd1
    simp only [handleFilterChange, toggle_roundtrip f t v hv]
    cases hfa : hasActiveFilters f
    · -- IDLE round trip: prior state had no active filter
      unfold applyFilters at hsync1 ⊢
      rw [hfa] at hsync1 ⊢
      simp only [Bool.false_eq_true, if_false] at hsync1 ⊢
      have hd := hideFilteredResults_ok_inv _ _ hsync1
      simp only [Dom.mk.injEq] at hd
      obtain ⟨-, -, hfv, hov, -, -⟩ := hd
      subst hfv
      simp only [List.map_const'] at hov
      rw [hideFilteredResults_eq _ true
        (by cases ac <;> simp [updateActiveFiltersCount])]
      refine ⟨rfl, updateActiveFiltersCount f _, rfl, ?_, ?_, ?_, ?_⟩
      · cases ac <;> simp [view, updateActiveFiltersCount]
      · cases ac with
        | none => simp [updateActiveFiltersCount]
        | some sct =>
          have hcf := congrArg Dom.activeCountText hsync2
          simp only [updateActiveFiltersCount, Option.some.injEq] at hcf ⊢
          exact hcf
      · cases ac <;>
          · simp [updateActiveFiltersCount, List.map_map, Function.comp]
            exact hov.symm
      · cases ac <;> simp [updateActiveFiltersCount]
    · -- FILTERED round trip: prior state was a recompute at f
      unfold applyFilters at hsync1 ⊢
      rw [hfa] at hsync1 ⊢
      simp only [if_true] at hsync1 ⊢
      have hd := displayFilteredResults_ok_inv _ _ _ hsync1
      simp only [Dom.mk.injEq] at hd
      obtain ⟨hg, hrc, hfv, hov, -, -⟩ := hd
      subst hg
      subst hrc
      subst hfv
      simp only [List.map_const'] at hov
      rw [displayFilteredResults_isSome_eq _ _
        (by cases ac <;> simp [updateActiveFiltersCount])
        (by cases ac <;> simp [updateActiveFiltersCount])
        (by cases ac <;> simp [updateActiveFiltersCount])]
      refine ⟨rfl, updateActiveFiltersCount f _, rfl, ?_, ?_, ?_, ?_⟩
      · cases ac <;> simp [view, updateActiveFiltersCount]
      · cases ac with
        | none => simp [updateActiveFiltersCount]
        | some sct =>
          have hcf := congrArg Dom.activeCountText hsync2
          simp only [updateActiveFiltersCount, Option.some.injEq] at hcf ⊢
          exact hcf
      · cases ac <;>
          · simp [updateActiveFiltersCount, List.map_map, Function.comp]
            exact hov.symm
      · cases ac <;> simp [updateActiveFiltersCount]

/-- An idle page in sync with the empty filter state: filtered view
hidden, original sections shown, count label empty. -/
def idleDom : Dom :=
  { gridContent := some []
    resultCountText := some ""
    filteredVisible := some false
    originalVisible := [true, true]
    activeCountText := some ""
    checkboxes := some [false, false] }

/-- The page state after toggling the dietary tag `vegan` on from the
idle state over the captured recipe set `[r0]`. -/
def c8AfterOnDom : Dom :=
  { gridContent := some []
    resultCountText := some "0"
    filteredVisible := some true
    originalVisible := [false, false]
    activeCountText := some "1 filter(s) active"
    checkboxes := some [false, false] }

/-- Witness for claim C8 amended: from the idle state, toggling the
dietary tag `vegan` on and then off restores the empty filter state and
the idle view. -/
theorem toggle_roundtrip_restores_witness :
    (handleFilterChange { category := [], dietary := ["vegan"] } [r0]
        c8AfterOnDom .dietary "vegan" false).1 =
        { category := [], dietary := [] } ∧
      ∃ d2,
        (handleFilterChange { category := [], dietary := ["vegan"] } [r0]
            c8AfterOnDom .dietary "vegan" false).2 = .ok d2 ∧
          view d2 = view idleDom ∧
          d2.activeCountText = idleDom.activeCountText ∧
          d2.originalVisible = idleDom.originalVisible ∧
          d2.checkboxes = idleDom.checkboxes :=
  toggle_roundtrip_restores { category := [], dietary := [] } [r0] idleDom
    .dietary "vegan" (by decide) rfl rfl
    { category := [], dietary := ["vegan"] } c8AfterOnDom rfl

end JokoSite
